import Mathlib

/-!
Shallow embedding of the `logger` package of dubbo-go
(`common/logger/logger.go`): the data model, the sink topology built by
`InitLoggerWithRolling`, and the package-level logger state machine
(`InitLog`, `SetLogger`, `GetLogger`, `SetLoggerLevel`).

External collaborators are modelled at their interfaces, following the
spec's scoping ("treated as external collaborators, consumed only
through narrow interfaces"):
- the zap structured-logging engine: levels are int8 values (Debug = -1,
  Info = 0, Warn = 1, Error = 2, DPanic = 3, Panic = 4, Fatal = 5),
  modelled as `Int` (all values appearing in the enabler arithmetic lie
  far inside the int8 range, so wrap-around never occurs); an
  `AtomicLevel` cell is `Option Int` (`none` is the zero value whose
  inner pointer is nil); `zap.Config.Build` is modelled by `zapBuild`;
- the lumberjack rotation engine: a `lumberjack.Logger` is the record of
  the fields this package sets;
- the filesystem and the YAML parser: passed to `InitLog` as function
  parameters returning contents or an error text.

A function returning `Option GlobalState` (or `Option (Option String ×
GlobalState)`) yields `none` exactly when the Go call panics; in that
case the package-level variables are not written.
-/

namespace Dubbo

/-- Models zapcore.DebugLevel. -/
def debugLevel : Int := -1

/-- Models zapcore.InfoLevel. -/
def infoLevel : Int := 0

/-- Models zapcore.WarnLevel. -/
def warnLevel : Int := 1

/-- Models zapcore.ErrorLevel. -/
def errorLevel : Int := 2

/-- Models zapcore.DPanicLevel. -/
def dpanicLevel : Int := 3

/-- Models zapcore.PanicLevel. -/
def panicLevel : Int := 4

/-- Models zapcore.FatalLevel. -/
def fatalLevel : Int := 5

/-- Models zapcore.EncoderConfig restricted to the fields
`InitLoggerWithRolling` sets: the record key names, and the names of
the encoder functions (the functions themselves are external rendering
code, identified here by their zapcore names). -/
structure EncoderConfig where
  timeKey : String
  levelKey : String
  nameKey : String
  callerKey : String
  messageKey : String
  stacktraceKey : String
  encodeLevel : String
  encodeTime : String
  encodeDuration : String
  encodeCaller : String
  deriving Repr, DecidableEq

/-- Models zap.Config restricted to the fields this package reads or
sets.  `level` models the zap.AtomicLevel cell: `none` is the zero
AtomicLevel (never set, nil inner pointer), `some l` a cell currently
holding level `l`. -/
structure ZapConfig where
  level : Option Int
  development : Bool
  encoding : String
  encoderConfig : EncoderConfig
  outputPaths : List String
  errorOutputPaths : List String
  deriving Repr, DecidableEq

/-- RollingFileConfig, from `common/logger/logger.go` (field types as in
the source: strings, Go ints — modelled as `Int` — and a bool). -/
structure RollingFileConfig where
  logFilePath : String
  errorFilename : String
  warnFilename : String
  infoFilename : String
  maxSize : Int
  maxBackups : Int
  maxAge : Int
  compress : Bool
  deriving Repr, DecidableEq

/-- ConfigWrapper, from `common/logger/logger.go`: the on-disk YAML
document shape. -/
structure ConfigWrapper where
  logConfig : ZapConfig
  rolling : RollingFileConfig
  deriving Repr, DecidableEq

/-- Models lumberjack.Logger restricted to the fields set by
`initLumberjackLogger`. -/
structure LumberjackLogger where
  filename : String
  maxSize : Int
  maxBackups : Int
  maxAge : Int
  compress : Bool
  deriving Repr, DecidableEq

/-- initLumberjackLogger, from `common/logger/logger.go`
(`filepath.Separator` is the slash on the platform modelled here). -/
def initLumberjackLogger (filename : String) (fileConfig : RollingFileConfig) :
    LumberjackLogger :=
  { filename := fileConfig.logFilePath ++ "/" ++ filename
    maxSize := fileConfig.maxSize
    maxBackups := fileConfig.maxBackups
    maxAge := fileConfig.maxAge
    compress := fileConfig.compress }

/-- Destination of one of the four zapcore cores assembled by
`InitLoggerWithRolling`: a lumberjack-wrapped file, or standard
output. -/
inductive SinkDest where
  | file (l : LumberjackLogger)
  | stdout
  deriving Repr, DecidableEq

/-- Models one zapcore.Core of the tee: the encoder configuration it
renders with (the source wraps it in a JSON encoder), its destination,
and its LevelEnablerFunc.  The enabler's first argument is the value
currently held by the shared dynamic level cell
(`zapLoggerConfig.Level.Level()` in the source closures, read at record
time); the second is the record's level. -/
structure Sink where
  encoder : EncoderConfig
  dest : SinkDest
  enabled : Int → Int → Bool

/-- Enabler of the info file core, from `InitLoggerWithRolling`:
`level == zapcore.InfoLevel && level - zapcore.InfoLevel - zapLoggerConfig.Level.Level() > -1`. -/
def infoLevelEnabler (configured level : Int) : Bool :=
  level == infoLevel && decide (level - infoLevel - configured > -1)

/-- Enabler of the warn file core, from `InitLoggerWithRolling`:
`level == zapcore.WarnLevel && zapcore.WarnLevel - zapLoggerConfig.Level.Level() > -1`. -/
def warnLevelEnabler (configured level : Int) : Bool :=
  level == warnLevel && decide (warnLevel - configured > -1)

/-- Enabler of the error file core, from `InitLoggerWithRolling`:
`level > zapcore.WarnLevel && zapcore.WarnLevel - zapLoggerConfig.Level.Level() > -1`. -/
def errorLevelEnabler (configured level : Int) : Bool :=
  decide (level > warnLevel) && decide (warnLevel - configured > -1)

/-- Enabler of the console core, from `InitLoggerWithRolling`:
`level - zapLoggerConfig.Level.Level() > -1`. -/
def consoleLevelEnabler (configured level : Int) : Bool :=
  decide (level - configured > -1)

/-- Models DubboLogger: the wrapped zap logger is represented by its
tee of cores, and `dynamicLevel` is the AtomicLevel cell shared between
the `SetLoggerLevel` method and every core's enabler. -/
structure DubboLogger where
  sinks : List Sink
  dynamicLevel : Int

/-- Value of the package-level `logger` variable.  `dubbo` is a
*DubboLogger, which implements the OpsLogger capability; `bare` is any
other Logger implementation, lacking that capability — such as the
inner zap SugaredLogger (carrying the same cores) that the tests
install via `SetLogger(GetLogger().(*DubboLogger).Logger)`. -/
inductive LoggerImpl where
  | dubbo (dl : DubboLogger)
  | bare (sinks : List Sink)

/-- Package-level mutable state: the `logger` variable of this package
and the getty networking library's logger slot (`none` models a nil
interface value). -/
structure GlobalState where
  logger : Option LoggerImpl
  gettyLogger : Option LoggerImpl

/-- Default zap configuration built by the `conf == nil` branch of
`InitLoggerWithRolling`. -/
def defaultZapConfig : ZapConfig :=
  { level := some debugLevel
    development := false
    encoding := "console"
    encoderConfig :=
      { timeKey := "time"
        levelKey := "level"
        nameKey := "logger"
        callerKey := "caller"
        messageKey := "message"
        stacktraceKey := "stacktrace"
        encodeLevel := "CapitalLevelEncoder"
        encodeTime := "ISO8601TimeEncoder"
        encodeDuration := "SecondsDurationEncoder"
        encodeCaller := "ShortCallerEncoder" }
    outputPaths := ["stderr"]
    errorOutputPaths := ["stderr"] }

/-- Resolution of the `conf` parameter of `InitLoggerWithRolling`: the
default configuration when nil, otherwise the supplied one. -/
def resolveConf : Option ZapConfig → ZapConfig
  | none => defaultZapConfig
  | some c => c

/-- Resolution of the `rolling` parameter of `InitLoggerWithRolling`
(`lumberjackRolling`): the literal defaults when nil, otherwise the
supplied one. -/
def resolveRolling : Option RollingFileConfig → RollingFileConfig
  | none =>
    { logFilePath := "./logs"
      errorFilename := "dubbo-error.log"
      warnFilename := "dubbo-warn.log"
      infoFilename := "dubbo-info.log"
      maxSize := 30
      maxBackups := 1
      maxAge := 3
      compress := false }
  | some r => r

/-- The four cores assembled by `InitLoggerWithRolling`, in source
order: info file, warn file, error file, console (stdout); all four
share the encoder built from the resolved configuration. -/
def buildSinks (c : ZapConfig) (r : RollingFileConfig) : List Sink :=
  [ { encoder := c.encoderConfig
      dest := SinkDest.file (initLumberjackLogger r.infoFilename r)
      enabled := infoLevelEnabler }
  , { encoder := c.encoderConfig
      dest := SinkDest.file (initLumberjackLogger r.warnFilename r)
      enabled := warnLevelEnabler }
  , { encoder := c.encoderConfig
      dest := SinkDest.file (initLumberjackLogger r.errorFilename r)
      enabled := errorLevelEnabler }
  , { encoder := c.encoderConfig
      dest := SinkDest.stdout
      enabled := consoleLevelEnabler } ]

/-- Whether a name is a registered zap encoding ("console" and "json"
are the encoders zap itself registers). -/
def encoderRegistered (name : String) : Bool :=
  name == "console" || name == "json"

/-- Models the external `zapLoggerConfig.Build(...)` call together with
its `zap.WrapCore` option: Build returns a nil logger and an error when
the configured encoding is not a registered encoder name or when the
config's Level is the zero AtomicLevel; otherwise it succeeds and
WrapCore replaces the core built from the config's own output paths
with the tee of `cores`.  Opening the configured sinks is modelled as
succeeding. -/
def zapBuild (c : ZapConfig) (cores : List Sink) : Option (List Sink) :=
  if encoderRegistered c.encoding then
    match c.level with
    | some _ => some cores
    | none => none
  else none

/-- InitLoggerWithRolling, from `common/logger/logger.go`.  The result
is `none` exactly when the call panics: when Build returns an error the
error is discarded (`zapLogger, _ := ...`), `zapLogger` is nil, and the
`zapLogger.Sugar()` call dereferences the nil pointer before either
package variable is written.  On success the constructed *DubboLogger
(whose `dynamicLevel` is the config's level cell, shared with every
enabler) is stored in the package `logger` variable and forwarded to
getty. -/
def InitLoggerWithRolling (conf : Option ZapConfig) (rolling : Option RollingFileConfig)
    (s : GlobalState) : Option GlobalState :=
  let zapLoggerConfig := resolveConf conf
  let lumberjackRolling := resolveRolling rolling
  let zapCores := buildSinks zapLoggerConfig lumberjackRolling
  match zapBuild zapLoggerConfig zapCores with
  | none => none
  | some cores =>
    match zapLoggerConfig.level with
    | none => none
    | some l =>
      let installed : LoggerImpl := LoggerImpl.dubbo { sinks := cores, dynamicLevel := l }
      some { s with logger := some installed, gettyLogger := some installed }

/-- InitLogger, from `common/logger/logger.go`: convenience wrapper
passing nil rolling configuration. -/
def InitLogger (conf : Option ZapConfig) (s : GlobalState) : Option GlobalState :=
  InitLoggerWithRolling conf none s

/-- SetLogger, from `common/logger/logger.go`: stores `log` in the
package `logger` variable and forwards it to getty.  No validation, no
failure path. -/
def SetLogger (log : LoggerImpl) (s : GlobalState) : GlobalState :=
  { s with logger := some log, gettyLogger := some log }

/-- GetLogger, from `common/logger/logger.go`: reads the package
`logger` variable; its type (a pure projection of the state) shows it
writes nothing. -/
def GetLogger (s : GlobalState) : Option LoggerImpl :=
  s.logger

/-- Models the level-name table of the external zapcore level parser
(`Level.unmarshalText`): the exact strings it recognises; any other
name is rejected. -/
def levelUnmarshalText : String → Option Int
  | "debug" => some debugLevel
  | "DEBUG" => some debugLevel
  | "info" => some infoLevel
  | "INFO" => some infoLevel
  | "" => some infoLevel
  | "warn" => some warnLevel
  | "WARN" => some warnLevel
  | "error" => some errorLevel
  | "ERROR" => some errorLevel
  | "dpanic" => some dpanicLevel
  | "DPANIC" => some dpanicLevel
  | "panic" => some panicLevel
  | "PANIC" => some panicLevel
  | "fatal" => some fatalLevel
  | "FATAL" => some fatalLevel
  | _ => none

/-- Models the lower-casing (`bytes.ToLower`) applied by the level
parser on its second attempt; on the ASCII level names it lower-cases
each character. -/
def stringToLower (s : String) : String :=
  String.mk (s.data.map Char.toLower)

/-- Models the external `zapcore.Level.Set` (via UnmarshalText): tries
the name verbatim, then lower-cased; fails only if both fail. -/
def levelSet (text : String) : Option Int :=
  match levelUnmarshalText text with
  | some l => some l
  | none => levelUnmarshalText (stringToLower text)

/-- SetLoggerLevel method of *DubboLogger, from
`common/logger/logger.go`: parse the level name; on success store the
parsed level in the shared dynamic level cell, otherwise leave the cell
unchanged (the parse error is dropped). -/
def DubboLogger.SetLoggerLevel (level : String) (dl : DubboLogger) : DubboLogger :=
  match levelSet level with
  | some l => { dl with dynamicLevel := l }
  | none => dl

/-- SetLoggerLevel package function, from `common/logger/logger.go`:
if the active logger implements the OpsLogger capability (among the
modelled values only *DubboLogger does), delegate to its method and
return true; otherwise return false and change nothing. -/
def SetLoggerLevel (level : String) (s : GlobalState) : Bool × GlobalState :=
  match s.logger with
  | some (LoggerImpl.dubbo dl) =>
    (true, { s with logger := some (LoggerImpl.dubbo (DubboLogger.SetLoggerLevel level dl)) })
  | _ => (false, s)

/-- Helper for `pathExt`: walks the reversed path; `acc` holds the
characters already passed, in original order. -/
def pathExtAux (acc : List Char) : List Char → String
  | [] => ""
  | c :: rest =>
    if c = '/' then ""
    else if c = '.' then String.mk (c :: acc)
    else pathExtAux (c :: acc) rest

/-- Models Go `path.Ext`: the suffix of the last slash-separated
element beginning at its final dot; empty if there is no dot. -/
def pathExt (p : String) : String :=
  pathExtAux [] p.data.reverse

/-- Error message returned by InitLog for the empty path (the spec's
ConfigMissing case). -/
def configMissingMsg : String := "log configure file name is nil"

/-- Error message returned by InitLog for a path whose extension is
not ".yml" (the spec's ConfigExtensionInvalid case; the Go format
string's literal braces are written with their escapes). -/
def extInvalidMsg (p : String) : String :=
  "log configure file name\x7b" ++ p ++ "\x7d suffix must be .yml"

/-- Error message returned by InitLog when reading the file fails (the
spec's ConfigReadError case); `e` is the underlying I/O error text. -/
def readErrMsg (p e : String) : String :=
  "ioutil.ReadFile(file:" ++ p ++ ") = error:" ++ e

/-- Error message returned by InitLog when YAML unmarshalling fails
(the spec's ConfigParseError case); `e` is the parser's error text. -/
def parseErrMsg (p e : String) : String :=
  "yaml.Unmarshal(file:" ++ p ++ ") = error:" ++ e

/-- InitLog, from `common/logger/logger.go`.  The filesystem and the
YAML parser are external collaborators, passed as functions: `readFile`
returns the file's contents or the I/O error text, `parseYaml` the
document decoded into a ConfigWrapper (whose zero value is the starting
point in the source) or the parse error text.  The result is `none`
when the call panics inside `InitLoggerWithRolling`, otherwise
`some (err, state)` with `err` the returned error message, if any. -/
def InitLog (logConfFile : String) (readFile : String → Except String String)
    (parseYaml : String → Except String ConfigWrapper) (s : GlobalState) :
    Option (Option String × GlobalState) :=
  if logConfFile = "" then
    (InitLoggerWithRolling none none s).map (fun s1 => (some configMissingMsg, s1))
  else if pathExt logConfFile ≠ ".yml" then
    (InitLoggerWithRolling none none s).map (fun s1 => (some (extInvalidMsg logConfFile), s1))
  else
    match readFile logConfFile with
    | Except.error e =>
      (InitLoggerWithRolling none none s).map (fun s1 => (some (readErrMsg logConfFile e), s1))
    | Except.ok confFileStream =>
      match parseYaml confFileStream with
      | Except.error e =>
        (InitLoggerWithRolling none none s).map
          (fun s1 => (some (parseErrMsg logConfFile e), s1))
      | Except.ok logConfig =>
        (InitLoggerWithRolling (some logConfig.logConfig) (some logConfig.rolling) s).map
          (fun s1 => (none, s1))

/-- Models invoking one of the leveled logging methods on the package
logger: calling through a nil interface value would panic (`none`); any
installed logger accepts the call. -/
def logCall (s : GlobalState) : Option Unit :=
  match s.logger with
  | some _ => some ()
  | none => none

/-- State before any initialisation: both logger slots nil. -/
def initialState : GlobalState := { logger := none, gettyLogger := none }

/-- The DubboLogger produced by `InitLoggerWithRolling` from the
default configuration and the default rolling configuration. -/
def defaultDubboLogger : DubboLogger :=
  { sinks := buildSinks defaultZapConfig (resolveRolling none)
    dynamicLevel := debugLevel }

/-- The state installed by `InitLoggerWithRolling none none`. -/
def defaultGlobalState : GlobalState :=
  { logger := some (LoggerImpl.dubbo defaultDubboLogger)
    gettyLogger := some (LoggerImpl.dubbo defaultDubboLogger) }

/-- Whether the active logger implements the OpsLogger capability. -/
def hasOpsCapability (s : GlobalState) : Bool :=
  match s.logger with
  | some (LoggerImpl.dubbo _) => true
  | _ => false

/-- Whether a core writes to a rotation-wrapped file. -/
def isFileSink (k : Sink) : Bool :=
  match k.dest with
  | SinkDest.file _ => true
  | SinkDest.stdout => false

/-- Whether a logger has at least one file sink among its cores. -/
def hasFileSink (dl : DubboLogger) : Bool :=
  dl.sinks.any isFileSink

/-- The zero zap.Config: level never set (zero AtomicLevel), empty
encoding — the value a YAML document lacking those keys decodes to. -/
def zeroZapConfig : ZapConfig :=
  { level := none
    development := false
    encoding := ""
    encoderConfig :=
      { timeKey := ""
        levelKey := ""
        nameKey := ""
        callerKey := ""
        messageKey := ""
        stacktraceKey := ""
        encodeLevel := ""
        encodeTime := ""
        encodeDuration := ""
        encodeCaller := "" }
    outputPaths := []
    errorOutputPaths := [] }

/-- A ConfigWrapper whose logConfig section is the zero zap.Config. -/
def zeroConfigWrapper : ConfigWrapper :=
  { logConfig := zeroZapConfig, rolling := resolveRolling none }

/-- Filesystem stub on which every read fails. -/
def noRead : String → Except String String :=
  fun _ => Except.error "no such file or directory"

/-- YAML stub on which every parse fails. -/
def noParse : String → Except String ConfigWrapper :=
  fun _ => Except.error "yaml: unmarshal errors"

/-- Filesystem stub on which every read succeeds. -/
def readOk : String → Except String String :=
  fun _ => Except.ok "rolling:"

/-- YAML stub decoding everything to the zero-logConfig wrapper. -/
def parseZero : String → Except String ConfigWrapper :=
  fun _ => Except.ok zeroConfigWrapper

/-- State after the tests' `SetLogger(GetLogger().(*DubboLogger).Logger)`:
both slots hold a bare logger without the OpsLogger capability. -/
def bareState : GlobalState :=
  { logger := some (LoggerImpl.bare defaultDubboLogger.sinks)
    gettyLogger := some (LoggerImpl.bare defaultDubboLogger.sinks) }

/-- Inversion for `zapBuild`: a successful build returns exactly the
tee it was given, and the level cell was set. -/
theorem zapBuild_some_inv {c : ZapConfig} {ks ks' : List Sink}
    (h : zapBuild c ks = some ks') : ks' = ks ∧ c.level.isSome = true := by
  unfold zapBuild at h
  split at h
  · cases hl : c.level with
    | none => rw [hl] at h; cases h
    | some l => rw [hl] at h; exact ⟨(Option.some.inj h).symm, by simp [hl]⟩
  · cases h

/-- Inversion for `InitLoggerWithRolling`: a non-panicking call
installs, in both slots, a DubboLogger whose cores are the four built
sinks and whose dynamic level cell is the resolved configuration's
level. -/
theorem initRolling_some_inv {conf : Option ZapConfig} {rolling : Option RollingFileConfig}
    {s gs : GlobalState} (h : InitLoggerWithRolling conf rolling s = some gs) :
    ∃ l : Int, (resolveConf conf).level = some l ∧
      gs.logger = some (LoggerImpl.dubbo
        { sinks := buildSinks (resolveConf conf) (resolveRolling rolling), dynamicLevel := l }) ∧
      gs.gettyLogger = gs.logger := by
  unfold InitLoggerWithRolling at h
  dsimp only at h
  split at h
  · cases h
  · rename_i cores hb
    obtain ⟨rfl, -⟩ := zapBuild_some_inv hb
    split at h
    · cases h
    · rename_i l hl
      refine ⟨l, hl, ?_, ?_⟩ <;> rw [← Option.some.inj h]

/-- Initialising with both configurations absent always succeeds and
installs the default logger, whatever the prior state. -/
theorem initDefault_eq (s : GlobalState) :
    InitLoggerWithRolling none none s = some defaultGlobalState := rfl

/-- C1: in every logger installed by `InitLoggerWithRolling`, the third
core is the error file sink, and its enabler holds for a record exactly
when the record's level is strictly above warn level AND warn level
(not the record's own level) is at or above the configured minimum
level; consequently, whenever the configured level is strictly above
warn level, the error sink fires for no record at all. -/
theorem errorSink_enabler_spec (conf : Option ZapConfig) (rolling : Option RollingFileConfig)
    (s gs : GlobalState) (dl : DubboLogger) (configured level : Int)
    (h1 : InitLoggerWithRolling conf rolling s = some gs)
    (h2 : gs.logger = some (LoggerImpl.dubbo dl)) :
    dl.sinks.map Sink.enabled =
      [infoLevelEnabler, warnLevelEnabler, errorLevelEnabler, consoleLevelEnabler] ∧
    (errorLevelEnabler configured level = true ↔
      warnLevel < level ∧ configured ≤ warnLevel) ∧
    (warnLevel < configured → errorLevelEnabler configured level = false) := by
  obtain ⟨l, -, hlog, -⟩ := initRolling_some_inv h1
  rw [h2] at hlog
  have hdl := LoggerImpl.dubbo.inj (Option.some.inj hlog)
  subst hdl
  refine ⟨rfl, ?_, ?_⟩
  · simp only [errorLevelEnabler, warnLevel, Bool.and_eq_true, decide_eq_true_eq]
    omega
  · intro hc
    have hB : decide (warnLevel - configured > -1) = false := by
      simp only [warnLevel] at hc ⊢
      simp only [decide_eq_false_iff_not]
      omega
    unfold errorLevelEnabler
    rw [hB, Bool.and_false]

/-- C1 witness: the default installation; at configured level fatal
(strictly above warn), the error sink rejects even an error-level
record. -/
theorem errorSink_enabler_spec_holds :
    InitLoggerWithRolling none none initialState = some defaultGlobalState ∧
    defaultGlobalState.logger = some (LoggerImpl.dubbo defaultDubboLogger) ∧
    (defaultDubboLogger.sinks.map Sink.enabled =
      [infoLevelEnabler, warnLevelEnabler, errorLevelEnabler, consoleLevelEnabler] ∧
     (errorLevelEnabler fatalLevel errorLevel = true ↔
       warnLevel < errorLevel ∧ fatalLevel ≤ warnLevel) ∧
     (warnLevel < fatalLevel → errorLevelEnabler fatalLevel errorLevel = false)) :=
  ⟨rfl, rfl,
    errorSink_enabler_spec none none initialState defaultGlobalState defaultDubboLogger
      fatalLevel errorLevel rfl rfl⟩

/-- C6: in every logger installed by `InitLoggerWithRolling`, the info
file sink's enabler holds exactly when the record's level equals info
AND info is at or above the configured minimum level, the warn file
sink's enabler holds exactly when the record's level equals warn AND
warn is at or above the configured level, and the console sink's
enabler holds exactly when the record's level is at or above the
configured level. -/
theorem fileConsole_enabler_spec (conf : Option ZapConfig) (rolling : Option RollingFileConfig)
    (s gs : GlobalState) (dl : DubboLogger) (configured level : Int)
    (h1 : InitLoggerWithRolling conf rolling s = some gs)
    (h2 : gs.logger = some (LoggerImpl.dubbo dl)) :
    dl.sinks.map Sink.enabled =
      [infoLevelEnabler, warnLevelEnabler, errorLevelEnabler, consoleLevelEnabler] ∧
    (infoLevelEnabler configured level = true ↔
      level = infoLevel ∧ configured ≤ infoLevel) ∧
    (warnLevelEnabler configured level = true ↔
      level = warnLevel ∧ configured ≤ warnLevel) ∧
    (consoleLevelEnabler configured level = true ↔ configured ≤ level) := by
  obtain ⟨l, -, hlog, -⟩ := initRolling_some_inv h1
  rw [h2] at hlog
  have hdl := LoggerImpl.dubbo.inj (Option.some.inj hlog)
  subst hdl
  refine ⟨rfl, ?_, ?_, ?_⟩
  · simp only [infoLevelEnabler, infoLevel, Bool.and_eq_true, decide_eq_true_eq, beq_iff_eq]
    omega
  · simp only [warnLevelEnabler, warnLevel, Bool.and_eq_true, decide_eq_true_eq, beq_iff_eq]
    omega
  · simp only [consoleLevelEnabler, decide_eq_true_eq]
    omega

/-- C6 witness: the default installation; at the default configured
level (debug) an info-level record enables the info sink and the
console sink, and a warn-level record enables the warn sink. -/
theorem fileConsole_enabler_spec_holds :
    InitLoggerWithRolling none none initialState = some defaultGlobalState ∧
    defaultGlobalState.logger = some (LoggerImpl.dubbo defaultDubboLogger) ∧
    (defaultDubboLogger.sinks.map Sink.enabled =
      [infoLevelEnabler, warnLevelEnabler, errorLevelEnabler, consoleLevelEnabler] ∧
     (infoLevelEnabler debugLevel infoLevel = true ↔
       infoLevel = infoLevel ∧ debugLevel ≤ infoLevel) ∧
     (warnLevelEnabler debugLevel infoLevel = true ↔
       infoLevel = warnLevel ∧ debugLevel ≤ warnLevel) ∧
     (consoleLevelEnabler debugLevel infoLevel = true ↔ debugLevel ≤ infoLevel)) :=
  ⟨rfl, rfl,
    fileConsole_enabler_spec none none initialState defaultGlobalState defaultDubboLogger
      debugLevel infoLevel rfl rfl⟩

/-- C7: with the rolling configuration absent, the resolved
RollingFileConfig is exactly the documented defaults, and the cores
built from it write to `./logs/dubbo-info.log`, `./logs/dubbo-warn.log`
and `./logs/dubbo-error.log` with size 30, backups 1, age 3, compress
off, plus standard output. -/
theorem defaultRolling_values :
    resolveRolling none =
      { logFilePath := "./logs"
        errorFilename := "dubbo-error.log"
        warnFilename := "dubbo-warn.log"
        infoFilename := "dubbo-info.log"
        maxSize := 30
        maxBackups := 1
        maxAge := 3
        compress := false } ∧
    defaultDubboLogger.sinks.map Sink.dest =
      [ SinkDest.file
          { filename := "./logs/dubbo-info.log"
            maxSize := 30, maxBackups := 1, maxAge := 3, compress := false }
      , SinkDest.file
          { filename := "./logs/dubbo-warn.log"
            maxSize := 30, maxBackups := 1, maxAge := 3, compress := false }
      , SinkDest.file
          { filename := "./logs/dubbo-error.log"
            maxSize := 30, maxBackups := 1, maxAge := 3, compress := false }
      , SinkDest.stdout ] :=
  ⟨rfl, rfl⟩

/-- C3: for the empty path, InitLog returns the ConfigMissing error
"log configure file name is nil" and still installs the default logger,
so the active logger is non-nil and a following log call does not
panic. -/
theorem initLog_empty_path (readFile : String → Except String String)
    (parseYaml : String → Except String ConfigWrapper) (s : GlobalState) :
    InitLog "" readFile parseYaml s =
      some (some "log configure file name is nil", defaultGlobalState) ∧
    defaultGlobalState.logger ≠ none ∧
    logCall defaultGlobalState = some () := by
  refine ⟨rfl, ?_, rfl⟩
  simp [defaultGlobalState]

/-- C3 witness: evaluated on the failing filesystem and parser stubs
from the pre-initialisation state. -/
theorem initLog_empty_path_holds :
    InitLog "" noRead noParse initialState =
      some (some "log configure file name is nil", defaultGlobalState) ∧
    defaultGlobalState.logger ≠ none ∧
    logCall defaultGlobalState = some () :=
  initLog_empty_path noRead noParse initialState

/-- C8: for every non-empty path whose extension is not ".yml", InitLog
returns the ConfigExtensionInvalid error, whose message embeds the
offending path, and still installs the default logger. -/
theorem initLog_bad_extension (p : String) (readFile : String → Except String String)
    (parseYaml : String → Except String ConfigWrapper) (s : GlobalState)
    (hne : p ≠ "") (hext : pathExt p ≠ ".yml") :
    InitLog p readFile parseYaml s =
      some (some ("log configure file name\x7b" ++ p ++ "\x7d suffix must be .yml"),
        defaultGlobalState) ∧
    defaultGlobalState.logger = some (LoggerImpl.dubbo defaultDubboLogger) := by
  refine ⟨?_, rfl⟩
  unfold InitLog
  rw [if_neg hne, if_pos hext, initDefault_eq]
  rfl

/-- C8 witness: the test's "log.xml" path. -/
theorem initLog_bad_extension_holds :
    "log.xml" ≠ "" ∧ pathExt "log.xml" ≠ ".yml" ∧
    (InitLog "log.xml" noRead noParse initialState =
      some (some ("log configure file name\x7b" ++ "log.xml" ++ "\x7d suffix must be .yml"),
        defaultGlobalState) ∧
     defaultGlobalState.logger = some (LoggerImpl.dubbo defaultDubboLogger)) :=
  ⟨by decide, by decide,
    initLog_bad_extension "log.xml" noRead noParse initialState (by decide) (by decide)⟩

/-- C9: SetLogger installs any logger value unconditionally, so an
immediately following GetLogger returns exactly it and the getty slot
holds the same value; GetLogger is the pure projection of the state, so
it changes no state. -/
theorem setLogger_installs (x : LoggerImpl) (s : GlobalState) :
    GetLogger (SetLogger x s) = some x ∧
    (SetLogger x s).gettyLogger = some x ∧
    GetLogger s = s.logger :=
  ⟨rfl, rfl, rfl⟩

/-- C9 witness: installing the bare logger over the default state. -/
theorem setLogger_installs_holds :
    GetLogger (SetLogger (LoggerImpl.bare defaultDubboLogger.sinks) defaultGlobalState) =
      some (LoggerImpl.bare defaultDubboLogger.sinks) ∧
    (SetLogger (LoggerImpl.bare defaultDubboLogger.sinks) defaultGlobalState).gettyLogger =
      some (LoggerImpl.bare defaultDubboLogger.sinks) ∧
    GetLogger defaultGlobalState = defaultGlobalState.logger :=
  setLogger_installs (LoggerImpl.bare defaultDubboLogger.sinks) defaultGlobalState

/-- C2: when the active logger has the OpsLogger capability,
SetLoggerLevel returns true, and an unparseable level name leaves the
whole state (in particular the dynamic level threshold) unchanged;
when the active logger lacks the capability, SetLoggerLevel returns
false and changes no state. -/
theorem setLoggerLevel_capability (s : GlobalState) (lvl : String) :
    (hasOpsCapability s = true →
      (SetLoggerLevel lvl s).1 = true ∧
      (levelSet lvl = none → SetLoggerLevel lvl s = (true, s))) ∧
    (hasOpsCapability s = false → SetLoggerLevel lvl s = (false, s)) := by
  obtain ⟨log, getty⟩ := s
  constructor
  · intro hcap
    match log with
    | some (LoggerImpl.dubbo dl) =>
      refine ⟨rfl, ?_⟩
      intro hparse
      simp only [SetLoggerLevel, DubboLogger.SetLoggerLevel, hparse]
    | some (LoggerImpl.bare k) => simp [hasOpsCapability] at hcap
    | none => simp [hasOpsCapability] at hcap
  · intro hcap
    match log with
    | some (LoggerImpl.dubbo dl) => simp [hasOpsCapability] at hcap
    | some (LoggerImpl.bare k) => rfl
    | none => rfl

/-- C2 witness: an unparseable name against the default (capable)
logger returns true without change; any name against the bare logger
returns false without change. -/
theorem setLoggerLevel_capability_holds :
    (hasOpsCapability defaultGlobalState = true ∧
     levelSet "bogus" = none ∧
     (SetLoggerLevel "bogus" defaultGlobalState).1 = true ∧
     SetLoggerLevel "bogus" defaultGlobalState = (true, defaultGlobalState)) ∧
    (hasOpsCapability bareState = false ∧
     SetLoggerLevel "info" bareState = (false, bareState)) :=
  ⟨⟨rfl, by decide, ((setLoggerLevel_capability defaultGlobalState "bogus").1 rfl).1,
    ((setLoggerLevel_capability defaultGlobalState "bogus").1 rfl).2 (by decide)⟩,
   ⟨rfl, (setLoggerLevel_capability bareState "info").2 rfl⟩⟩

/-- C4 counterexample: the logger installed by the empty-path failure
of InitLog is not console-only — it has rotation-wrapped file sinks. -/
theorem defaultLogger_not_console_only :
    InitLog "" noRead noParse initialState =
      some (some configMissingMsg, defaultGlobalState) ∧
    defaultGlobalState.logger = some (LoggerImpl.dubbo defaultDubboLogger) ∧
    hasFileSink defaultDubboLogger = true :=
  ⟨rfl, rfl, rfl⟩

/-- C4 (amended): the default logger installed on every InitLog failure
path has minimum level debug, but is not console-only: its cores are the
three default rolling-file sinks plus a console (stdout) sink. -/
theorem initLog_failure_default_logger (p : String)
    (readFile : String → Except String String)
    (parseYaml : String → Except String ConfigWrapper) (s : GlobalState)
    (e : String) (gs : GlobalState)
    (h : InitLog p readFile parseYaml s = some (some e, gs)) :
    gs = defaultGlobalState ∧
    defaultDubboLogger.dynamicLevel = debugLevel ∧
    hasFileSink defaultDubboLogger = true ∧
    defaultDubboLogger.sinks.map Sink.dest =
      [ SinkDest.file
          { filename := "./logs/dubbo-info.log"
            maxSize := 30, maxBackups := 1, maxAge := 3, compress := false }
      , SinkDest.file
          { filename := "./logs/dubbo-warn.log"
            maxSize := 30, maxBackups := 1, maxAge := 3, compress := false }
      , SinkDest.file
          { filename := "./logs/dubbo-error.log"
            maxSize := 30, maxBackups := 1, maxAge := 3, compress := false }
      , SinkDest.stdout ] := by
  refine ⟨?_, rfl, rfl, rfl⟩
  unfold InitLog at h
  split at h
  · rw [initDefault_eq] at h
    simp only [Option.map_some', Option.some.injEq, Prod.mk.injEq] at h
    exact h.2.symm
  · split at h
    · rw [initDefault_eq] at h
      simp only [Option.map_some', Option.some.injEq, Prod.mk.injEq] at h
      exact h.2.symm
    · split at h
      · rw [initDefault_eq] at h
        simp only [Option.map_some', Option.some.injEq, Prod.mk.injEq] at h
        exact h.2.symm
      · split at h
        · rw [initDefault_eq] at h
          simp only [Option.map_some', Option.some.injEq, Prod.mk.injEq] at h
          exact h.2.symm
        · rename_i cw hcw
          cases hr : InitLoggerWithRolling (some cw.logConfig) (some cw.rolling) s with
          | none => rw [hr] at h; cases h
          | some g1 => rw [hr] at h; simp at h

/-- C4 amended witness: the empty-path failure. -/
theorem initLog_failure_default_logger_holds :
    InitLog "" noRead noParse initialState =
      some (some configMissingMsg, defaultGlobalState) ∧
    (defaultGlobalState = defaultGlobalState ∧
     defaultDubboLogger.dynamicLevel = debugLevel ∧
     hasFileSink defaultDubboLogger = true ∧
     defaultDubboLogger.sinks.map Sink.dest =
      [ SinkDest.file
          { filename := "./logs/dubbo-info.log"
            maxSize := 30, maxBackups := 1, maxAge := 3, compress := false }
      , SinkDest.file
          { filename := "./logs/dubbo-warn.log"
            maxSize := 30, maxBackups := 1, maxAge := 3, compress := false }
      , SinkDest.file
          { filename := "./logs/dubbo-error.log"
            maxSize := 30, maxBackups := 1, maxAge := 3, compress := false }
      , SinkDest.stdout ]) :=
  ⟨rfl, initLog_failure_default_logger "" noRead noParse initialState
    configMissingMsg defaultGlobalState rfl⟩

/-- C5 counterexample: on the zero zap.Config (unset level cell, empty
encoding) the underlying Build fails, the discarded error leaves
`zapLogger` nil, and the `Sugar()` call panics (`none`): the call does
not complete and installs nothing. -/
theorem initRolling_can_panic :
    InitLoggerWithRolling (some zeroZapConfig) none initialState = none :=
  rfl

/-- C5 (amended): InitLoggerWithRolling completes and installs a logger
whenever the underlying construction succeeds — the configured encoding
is a registered encoder name and the level cell is set (in particular
always when the config is absent) — but when the construction returns
an error the call panics instead of being harmless. -/
theorem initRolling_total_when_buildable (conf : Option ZapConfig)
    (rolling : Option RollingFileConfig) (s : GlobalState)
    (henc : encoderRegistered (resolveConf conf).encoding = true)
    (hlvl : (resolveConf conf).level.isSome = true) :
    ∃ gs : GlobalState,
      InitLoggerWithRolling conf rolling s = some gs ∧ gs.logger.isSome = true := by
  unfold InitLoggerWithRolling
  dsimp only
  unfold zapBuild
  rw [if_pos henc]
  cases hl : (resolveConf conf).level with
  | none => rw [hl] at hlvl; simp at hlvl
  | some l => exact ⟨_, rfl, rfl⟩

/-- C5 amended witness: both configurations absent. -/
theorem initRolling_total_when_buildable_holds :
    encoderRegistered (resolveConf none).encoding = true ∧
    (resolveConf none).level.isSome = true ∧
    ∃ gs : GlobalState,
      InitLoggerWithRolling none none initialState = some gs ∧ gs.logger.isSome = true :=
  ⟨rfl, rfl, initRolling_total_when_buildable none none initialState rfl rfl⟩

/-- Every returning InitLog call obtained its final state from a
non-panicking InitLoggerWithRolling call. -/
theorem initLog_some_from_rolling {p : String} {rf : String → Except String String}
    {py : String → Except String ConfigWrapper} {s : GlobalState}
    {err : Option String} {gs : GlobalState}
    (h : InitLog p rf py s = some (err, gs)) :
    ∃ conf rolling, InitLoggerWithRolling conf rolling s = some gs := by
  unfold InitLog at h
  split at h
  · obtain ⟨gs1, hr, hf⟩ := Option.map_eq_some'.mp h
    injection hf with h1 h2
    exact ⟨none, none, h2 ▸ hr⟩
  · split at h
    · obtain ⟨gs1, hr, hf⟩ := Option.map_eq_some'.mp h
      injection hf with h1 h2
      exact ⟨none, none, h2 ▸ hr⟩
    · split at h
      · obtain ⟨gs1, hr, hf⟩ := Option.map_eq_some'.mp h
        injection hf with h1 h2
        exact ⟨none, none, h2 ▸ hr⟩
      · split at h
        · obtain ⟨gs1, hr, hf⟩ := Option.map_eq_some'.mp h
          injection hf with h1 h2
          exact ⟨none, none, h2 ▸ hr⟩
        · rename_i cw hcw
          obtain ⟨gs1, hr, hf⟩ := Option.map_eq_some'.mp h
          injection hf with h1 h2
          exact ⟨some cw.logConfig, some cw.rolling, h2 ▸ hr⟩

/-- C10 counterexample: a returning-free path — with a bare logger
previously installed by SetLogger, an InitLog call whose YAML decodes
to the zero logConfig panics (`none`), installs nothing, and leaves the
bare (capability-less) logger in place, so a following SetLoggerLevel
returns false. -/
theorem initLog_can_leave_bare_logger :
    InitLog "a.yml" readOk parseZero bareState = none ∧
    hasOpsCapability bareState = false ∧
    (SetLoggerLevel "info" bareState).1 = false :=
  ⟨rfl, rfl, rfl⟩

/-- C10 (amended): after every InitLog call that returns — with an
error or nil — the installed active logger is a DubboLogger with the
level-adjustment capability, so an immediately following
SetLoggerLevel call returns true; a call whose parsed configuration
makes the underlying construction fail panics and installs nothing, so
a capability-less logger installed earlier by SetLogger can survive
such a call. -/
theorem initLog_returns_ops_logger (p : String)
    (readFile : String → Except String String)
    (parseYaml : String → Except String ConfigWrapper) (s : GlobalState)
    (err : Option String) (gs : GlobalState)
    (h : InitLog p readFile parseYaml s = some (err, gs)) :
    hasOpsCapability gs = true ∧
    (SetLoggerLevel "info" gs).1 = true ∧
    ∃ dl : DubboLogger, gs.logger = some (LoggerImpl.dubbo dl) := by
  obtain ⟨conf, rolling, hr⟩ := initLog_some_from_rolling h
  obtain ⟨l, -, hlog, -⟩ := initRolling_some_inv hr
  refine ⟨?_, ?_, ⟨_, hlog⟩⟩
  · simp only [hasOpsCapability, hlog]
  · simp only [SetLoggerLevel, hlog]

/-- C10 amended witness: the empty-path call, which returns the
ConfigMissing error and installs the capable default logger. -/
theorem initLog_returns_ops_logger_holds :
    InitLog "" noRead noParse initialState =
      some (some configMissingMsg, defaultGlobalState) ∧
    (hasOpsCapability defaultGlobalState = true ∧
     (SetLoggerLevel "info" defaultGlobalState).1 = true ∧
     ∃ dl : DubboLogger, defaultGlobalState.logger = some (LoggerImpl.dubbo dl)) :=
  ⟨rfl, initLog_returns_ops_logger "" noRead noParse initialState
    (some configMissingMsg) defaultGlobalState rfl⟩

end Dubbo
